import Mathlib

/-!
Shallow embedding of the pharmacy-inventory application (`main.py`): the
SQLite-backed data model (`types`, `items`, `settings`), the CRUD handlers,
the expiry-range filter of `load_data`, the settings upsert, and the PDF
table construction of `generate_pdf`.  Machine behaviour of Python strings
(`str.strip`, `str.isdigit`, `str.replace(".", "", 1)`, truthiness) is
modelled by executable Lean functions.
-/

namespace Pharmacy

/-! ### Python string/value primitives -/

/-- Python truthiness of an optional string (a `flet` dropdown/text value):
`None` and `""` are falsy, any other string is truthy. -/
def pyTruthy : Option String → Bool
  | none => false
  | some s => !s.data.isEmpty

/-- Python `str.strip()`: drop whitespace from both ends. -/
def pyStrip (s : String) : String :=
  ⟨(((s.data.dropWhile Char.isWhitespace).reverse).dropWhile Char.isWhitespace).reverse⟩

/-- Python `str.isdigit()` restricted to ASCII digits: true iff the string is
non-empty and every character is a digit. -/
def pyIsDigit (s : String) : Bool :=
  !s.data.isEmpty && s.data.all Char.isDigit

/-- Characters remaining after Python `s.replace(".", "", 1)`: remove the
first `'.'`, if any. -/
def removeFirstDot : List Char → List Char
  | [] => []
  | c :: cs => if c = '.' then cs else c :: removeFirstDot cs

/-- Python `s.replace(".", "", 1)` on a string. -/
def pyReplaceFirstDot (s : String) : String :=
  ⟨removeFirstDot s.data⟩

/-- Decimal value of a digit list (most significant first). -/
def digitsToNat (l : List Char) : Nat :=
  l.foldl (fun a c => a * 10 + (c.toNat - 48)) 0

/-- Python `int(s)` for a string of digits (the callers guard with
`isdigit`). -/
def strToNat (s : String) : Nat :=
  digitsToNat s.data

/-- Characters before and after the first `'.'` (everything when there is
no dot, with an empty fractional part). -/
def splitFirstDot : List Char → List Char × List Char
  | [] => ([], [])
  | c :: cs =>
    if c = '.' then ([], cs)
    else
      let p := splitFirstDot cs
      (c :: p.1, p.2)

/-- Python `float(s)` for a decimal-digit string with at most one `'.'`
(the callers guard with `replace(".", "", 1).isdigit()`), as the exact
rational `intPart.fracPart`. -/
def parsePrice (s : String) : ℚ :=
  let p := splitFirstDot s.data
  mkRat (digitsToNat p.1 * 10 ^ p.2.length + digitsToNat p.2) (10 ^ p.2.length)

/-- Python `f"{m:02d}"`: decimal rendering left-padded with zeros to width
two. -/
def pad2 (m : Nat) : String :=
  if m < 10 then "0" ++ toString m else toString m

/-- Python `f"{p:.2f}"` for a non-negative value: round `p` to the nearest
hundredth (ties up, i.e. take `⌊p * 100 + 1/2⌋ = ⌊(200 * num + den) / (2 * den)⌋`
hundredths) and print with exactly two decimals. -/
def format2f (p : ℚ) : String :=
  let cents : Nat := (Rat.floor (mkRat (200 * p.num + (p.den : Int)) (2 * p.den))).toNat
  toString (cents / 100) ++ "." ++ pad2 (cents % 100)

/-- A Python `datetime.datetime` restricted to the fields the app uses. -/
structure PyDate where
  year : Nat
  month : Nat
  day : Nat
deriving Repr, DecidableEq

/-- Comparison `a <= b` on `datetime` values: lexicographic on
(year, month, day). -/
def pyDateLe (a b : PyDate) : Bool :=
  decide (a.year < b.year) ||
    (decide (a.year = b.year) &&
      (decide (a.month < b.month) ||
        (decide (a.month = b.month) && decide (a.day ≤ b.day))))

/-- Constructing `datetime.datetime(y, m, d)` raises `ValueError` outside these bounds;
day bounds are immaterial here because the app only uses days 1 and 28,
valid in every month. -/
def pyDateValid (y m : Nat) : Bool :=
  decide (1 ≤ y) && decide (y ≤ 9999) && decide (1 ≤ m) && decide (m ≤ 12)

/-! ### Data model: the three tables of `init_db` -/

/-- A row of the `types` table. -/
structure TypeRow where
  id : Nat
  name_en : String
  name_ar : String
deriving Repr, DecidableEq

/-- A row of the `items` table (`created_at` is never read by the app logic
and is omitted). -/
structure ItemRow where
  id : Nat
  name : String
  type_id : Nat
  quantity : Nat
  price : ℚ
  expiry_month : Nat
  expiry_year : Nat
deriving Repr, DecidableEq

/-- A row of the `settings` table. -/
structure SettingsRow where
  id : Nat
  pharmacy_name : String
  phone_number : String
  doctor_name : String
  doctor_phone : String
  theme_mode : String
deriving Repr, DecidableEq

/-- The database state: the three tables. -/
structure DB where
  types : List TypeRow
  items : List ItemRow
  settings : List SettingsRow
deriving Repr, DecidableEq

/-! ### `init_db`: seeding -/

/-- The 8 medicine types inserted by `init_db` when `types` is empty
(`AUTOINCREMENT` ids 1..8).  Note the trailing space in `"Cream "` in the
source. -/
def seedTypes : List TypeRow :=
  [⟨1, "Tablet", "أقراص"⟩,
   ⟨2, "Syrup", "شراب"⟩,
   ⟨3, "Injection", "حقن"⟩,
   ⟨4, "Capsule", "كبسولات"⟩,
   ⟨5, "Ointment", "مرهم"⟩,
   ⟨6, "Drops", "نقط"⟩,
   ⟨7, "Spray", "بخاخ"⟩,
   ⟨8, "Cream ", "كريم"⟩]

/-- The settings row inserted by `init_db` when `settings` is empty. -/
def defaultSettingsRow : SettingsRow :=
  ⟨1, "My Pharmacy", "0100000000", "", "", "light"⟩

/-- Seeding step of `init_db`: each table is seeded iff its `COUNT(*)` is 0. -/
def initDb (db : DB) : DB :=
  { db with
    types := if db.types.length = 0 then seedTypes else db.types
    settings := if db.settings.length = 0 then [defaultSettingsRow] else db.settings }

/-! ### The listing query of `load_data` -/

/-- One tuple of the `load_data` query
`SELECT items.id, items.name, types.name_en, items.quantity, items.price,
items.expiry_month, items.expiry_year FROM items JOIN types ON
items.type_id = types.id`. -/
structure ListedItem where
  id : Nat
  name : String
  type_name : String
  quantity : Nat
  price : ℚ
  expiry_month : Nat
  expiry_year : Nat
deriving Repr, DecidableEq

/-- The inner join of one `items` row with `types`: the row is listed iff a
type with its `type_id` exists. -/
def joinRow (types : List TypeRow) (it : ItemRow) : Option ListedItem :=
  (types.find? (fun t => t.id == it.type_id)).map (fun t =>
    ⟨it.id, it.name, t.name_en, it.quantity, it.price, it.expiry_month, it.expiry_year⟩)

/-- The comparator of `ORDER BY items.expiry_year ASC, items.expiry_month ASC`. -/
def expiryLe (a b : ListedItem) : Prop :=
  a.expiry_year < b.expiry_year ∨
    (a.expiry_year = b.expiry_year ∧ a.expiry_month ≤ b.expiry_month)

instance : DecidableRel expiryLe := fun a b => by
  unfold expiryLe; infer_instance

instance : IsTotal ListedItem expiryLe :=
  ⟨fun a b => by unfold expiryLe; omega⟩

instance : IsTrans ListedItem expiryLe :=
  ⟨fun a b c hab hbc => by unfold expiryLe at *; omega⟩

/-- Result of the `load_data` query: the `items`/`types` join ordered by
`(expiry_year ASC, expiry_month ASC)`. -/
def listItems (db : DB) : List ListedItem :=
  (db.items.filterMap (joinRow db.types)).insertionSort expiryLe

/-! ### The expiry-range filter of `load_data` -/

/-- The four filter dropdown values (`start_month`, `start_year`,
`end_month`, `end_year`); `none` models an unselected dropdown. -/
structure FilterInput where
  startMonth : Option String
  startYear : Option String
  endMonth : Option String
  endYear : Option String
deriving Repr, DecidableEq

/-- Expiry date of a listed item as built in the filter comprehension:
`datetime(item[6], item[5], 1)`. -/
def itemDate (r : ListedItem) : PyDate :=
  ⟨r.expiry_year, r.expiry_month, 1⟩

/-- Filtering step of `load_data`: if all four dropdowns are truthy, keep the
rows whose `(expiry_year, expiry_month, 1)` date lies between
`(startYear, startMonth, 1)` and `(endYear, endMonth, 28)`; any `datetime`
construction error (invalid month/year) is caught and falls back to the
full list, as does a partially specified filter. -/
def loadData (f : FilterInput) (rows : List ListedItem) : List ListedItem :=
  if pyTruthy f.startMonth && pyTruthy f.startYear &&
      pyTruthy f.endMonth && pyTruthy f.endYear then
    let sy := strToNat (f.startYear.getD "")
    let sm := strToNat (f.startMonth.getD "")
    let ey := strToNat (f.endYear.getD "")
    let em := strToNat (f.endMonth.getD "")
    if pyDateValid sy sm && pyDateValid ey em &&
        rows.all (fun r => pyDateValid r.expiry_year r.expiry_month) then
      rows.filter (fun r =>
        pyDateLe ⟨sy, sm, 1⟩ (itemDate r) && pyDateLe (itemDate r) ⟨ey, em, 28⟩)
    else
      rows
  else
    rows

/-! ### Storage-level item operations -/

/-- Fields written by the item `INSERT`/`UPDATE` statements (id and
`created_at` are never in the column list). -/
structure ItemFields where
  name : String
  type_id : Nat
  quantity : Nat
  price : ℚ
  expiry_month : Nat
  expiry_year : Nat
deriving Repr, DecidableEq

/-- The schema `CHECK` constraints on an `items` row:
`quantity >= 0` (vacuous for `Nat`), `price >= 0`,
`expiry_month BETWEEN 1 AND 12`.  SQLite does not enforce the foreign key
(no `PRAGMA foreign_keys`), so `type_id` is unconstrained at write time. -/
def itemChecksOk (f : ItemFields) : Bool :=
  decide (0 ≤ f.price) && decide (1 ≤ f.expiry_month) && decide (f.expiry_month ≤ 12)

/-- Next `AUTOINCREMENT` id for the `items` table. -/
def nextItemId (db : DB) : Nat :=
  (db.items.foldr (fun r m => max r.id m) 0) + 1

/-- `INSERT INTO items (name, type_id, quantity, price, expiry_month,
expiry_year) VALUES (...)`: appends a fresh row, or fails on a `CHECK`
violation leaving the database unchanged. -/
def insertItem (db : DB) (f : ItemFields) : Except String DB :=
  if itemChecksOk f then
    Except.ok { db with items := db.items ++
      [⟨nextItemId db, f.name, f.type_id, f.quantity, f.price,
        f.expiry_month, f.expiry_year⟩] }
  else
    Except.error "CHECK constraint failed"

/-- `UPDATE items SET ... WHERE id = ?`: rewrites every row whose id
matches (zero matching rows is not an error), or fails on a `CHECK`
violation of a rewritten row. -/
def updateItems (db : DB) (iid : Nat) (f : ItemFields) : Except String DB :=
  if db.items.any (fun r => r.id == iid) && !itemChecksOk f then
    Except.error "CHECK constraint failed"
  else
    Except.ok { db with items := db.items.map (fun r =>
      if r.id == iid then
        ⟨r.id, f.name, f.type_id, f.quantity, f.price, f.expiry_month, f.expiry_year⟩
      else r) }

/-- `DELETE FROM items WHERE id = ?` as executed by `on_delete_click`:
unconditional, never fails. -/
def deleteItem (db : DB) (iid : Nat) : DB :=
  { db with items := db.items.filter (fun r => !(r.id == iid)) }

/-! ### The `save_item` handlers (add and edit forms) -/

/-- The form fields read by `save_item`: two text fields (`name`,
`quantity`, `price` — always strings in flet) and three dropdowns
(month, year, type) whose value may be `None`. -/
structure ItemFormInput where
  name : String
  quantity : String
  price : String
  month : Option String
  year : Option String
  typeId : Option String
deriving Repr, DecidableEq

/-- Outcome surfaced to the user by a handler: an error snackbar or a
success snackbar, with its message. -/
inductive SaveOutcome where
  | error (msg : String)
  | success (msg : String)
deriving Repr, DecidableEq

/-- Validation check 1 of `save_item`: `name.value.strip()` truthy. -/
def nameOk (inp : ItemFormInput) : Bool :=
  !(pyStrip inp.name == "")

/-- Validation check 2: `quantity.value.isdigit() and int(quantity.value) > 0`
(the code rejects on the negation). -/
def qtyOk (inp : ItemFormInput) : Bool :=
  pyIsDigit inp.quantity && decide (0 < strToNat inp.quantity)

/-- Validation check 3: `price.value.replace(".", "", 1).isdigit() and
float(price.value) > 0`. -/
def priceOk (inp : ItemFormInput) : Bool :=
  pyIsDigit (pyReplaceFirstDot inp.price) && decide (0 < parsePrice inp.price)

/-- Validation check 4: `month_dropdown.value and year_dropdown.value`. -/
def monthYearOk (inp : ItemFormInput) : Bool :=
  pyTruthy inp.month && pyTruthy inp.year

/-- Validation check 5: `type_dropdown.value` truthy. -/
def typeOk (inp : ItemFormInput) : Bool :=
  pyTruthy inp.typeId

/-- The parsed field tuple passed to the `INSERT`/`UPDATE` statement. -/
def parsedFields (inp : ItemFormInput) : ItemFields :=
  ⟨pyStrip inp.name, strToNat (inp.typeId.getD ""), strToNat inp.quantity,
   parsePrice inp.price, strToNat (inp.month.getD ""), strToNat (inp.year.getD "")⟩

/-- The `save_item` handler of `add_item_page`: the five field checks in
source order, each aborting with its snackbar message, then the insert;
a database error is caught and shown as `DB Error`. -/
def addSaveItem (inp : ItemFormInput) (db : DB) : DB × SaveOutcome :=
  if !nameOk inp then (db, .error "Please enter the item name")
  else if !qtyOk inp then (db, .error "Quantity must be a positive integer")
  else if !priceOk inp then (db, .error "Price must be a valid positive number")
  else if !monthYearOk inp then (db, .error "Please select expiry month and year")
  else if !typeOk inp then (db, .error "Please select a medicine type")
  else
    match insertItem db (parsedFields inp) with
    | .ok db2 => (db2, .success "Item added successfully")
    | .error msg => (db, .error ("DB Error: " ++ msg))

/-- The `save_item` handler of `edit_item_page`: identical validation, then
`UPDATE ... WHERE id = item_id`. -/
def editSaveItem (iid : Nat) (inp : ItemFormInput) (db : DB) : DB × SaveOutcome :=
  if !nameOk inp then (db, .error "Please enter the item name")
  else if !qtyOk inp then (db, .error "Quantity must be a positive integer")
  else if !priceOk inp then (db, .error "Price must be a valid positive number")
  else if !monthYearOk inp then (db, .error "Please select expiry month and year")
  else if !typeOk inp then (db, .error "Please select a medicine type")
  else
    match updateItems db iid (parsedFields inp) with
    | .ok db2 => (db2, .success "Item updated successfully")
    | .error msg => (db, .error ("DB Error: " ++ msg))

/-! ### The settings page (`settings_page` / `save_settings`) -/

/-- The in-memory settings values held by `settings_page` (loaded from the
row with id 1, defaulted on absence or error). -/
structure SettingsState where
  pharmacy_name : String
  phone_number : String
  doctor_name : String
  doctor_phone : String
  theme_mode : String
deriving Repr, DecidableEq

/-- The form values read by `save_settings`: four text fields and the
dark-mode switch. -/
structure SettingsInput where
  name : String
  phone : String
  docName : String
  docPhone : String
  darkMode : Bool
deriving Repr, DecidableEq

/-- One field assignment `field = input.strip() or field`: keep the
previous value when the stripped input is empty, else take the stripped
input. -/
def mergeField (input prev : String) : String :=
  if pyStrip input = "" then prev else pyStrip input

/-- The in-memory state after the assignments at the top of
`save_settings`. -/
def newSettingsState (prev : SettingsState) (inp : SettingsInput) : SettingsState :=
  ⟨mergeField inp.name prev.pharmacy_name,
   mergeField inp.phone prev.phone_number,
   mergeField inp.docName prev.doctor_name,
   mergeField inp.docPhone prev.doctor_phone,
   if inp.darkMode then "dark" else "light"⟩

/-- The row written by `save_settings` for state `s` and row id `i`. -/
def settingsRowOf (i : Nat) (s : SettingsState) : SettingsRow :=
  ⟨i, s.pharmacy_name, s.phone_number, s.doctor_name, s.doctor_phone, s.theme_mode⟩

/-- Storage step of `save_settings`: `SELECT id FROM settings LIMIT 1`
returns no row iff the table is empty, in which case a row is inserted
(`AUTOINCREMENT` id 1 on a fresh table); otherwise
`UPDATE settings SET ... WHERE id = 1`. -/
def saveSettings (db : DB) (prev : SettingsState) (inp : SettingsInput) : DB :=
  let s := newSettingsState prev inp
  if db.settings.isEmpty then
    { db with settings := [settingsRowOf 1 s] }
  else
    { db with settings := db.settings.map (fun r =>
        if r.id == 1 then settingsRowOf r.id s else r) }

/-! ### PDF export (`export_to_pdf` / `generate_pdf`) -/

/-- One body row of the PDF table:
`[str(idx), name, type_name, str(qty), f"{price:.2f}", f"{exp_month:02d}/{exp_year}"]`. -/
def pdfItemRow (idx : Nat) (r : ListedItem) : List String :=
  [toString idx, r.name, r.type_name, toString r.quantity, format2f r.price,
   pad2 r.expiry_month ++ "/" ++ toString r.expiry_year]

/-- Body rows built by `for idx, item in enumerate(filtered_data, start=1)`. -/
def pdfBodyRows : Nat → List ListedItem → List (List String)
  | _, [] => []
  | idx, r :: rs => pdfItemRow idx r :: pdfBodyRows (idx + 1) rs

/-- The `data` list handed to `Table(...)` in `generate_pdf`: the header
row followed by one numbered row per filtered item. -/
def pdfTableData (rows : List ListedItem) : List (List String) :=
  ["No", "Name", "Type", "Qty", "Price", "Expiry"] :: pdfBodyRows 1 rows

/-- Outcome of the `export_to_pdf` entry: either the early
`"No data to export"` error (before any destination path is chosen and
before `generate_pdf` is defined or called), or proceeding to path
selection and generation with the filtered rows. -/
inductive ExportOutcome where
  | noData
  | proceed (filtered : List ListedItem)
deriving Repr, DecidableEq

/-- Start of `export_to_pdf`: reload the filtered data and stop with an
error snackbar when it is empty (`if not filtered_data`). -/
def exportToPdf (f : FilterInput) (db : DB) : ExportOutcome :=
  let filtered := loadData f (listItems db)
  if filtered.isEmpty then .noData else .proceed filtered

/-! ### Sample data used by witnesses -/

/-- A concrete database: seeded types and settings plus one item. -/
def sampleDB : DB :=
  { types := seedTypes
    items := [⟨1, "Aspirin", 1, 5, 3, 6, 2024⟩]
    settings := [defaultSettingsRow] }

/-- Concrete listed rows with expiry dates (2024,1), (2024,6), (2025,1). -/
def exRows : List ListedItem :=
  [⟨1, "A", "Tablet", 1, 1, 1, 2024⟩,
   ⟨2, "B", "Tablet", 1, 1, 6, 2024⟩,
   ⟨3, "C", "Tablet", 1, 1, 1, 2025⟩]

/-! ### Theorems -/

/-- C4: for every item list and every partially specified filter (at least
one of the four dropdowns unset or empty), `load_data` returns the full
unfiltered list unchanged; the embedding is a total function, so no
exception escapes (the source wraps the filter in a `try` that falls back
to the full list). -/
theorem c4_partial_filter_ignored (f : FilterInput) (rows : List ListedItem)
    (h : ¬(pyTruthy f.startMonth = true ∧ pyTruthy f.startYear = true ∧
           pyTruthy f.endMonth = true ∧ pyTruthy f.endYear = true)) :
    loadData f rows = rows := by
  unfold loadData
  rw [if_neg]
  simp only [Bool.and_eq_true]
  intro hc
  exact h ⟨hc.1.1.1, hc.1.1.2, hc.1.2, hc.2⟩

/-- Witness for C4: a filter with only three of the four fields set leaves
the concrete list unchanged. -/
theorem c4_witness :
    loadData ⟨some "03", none, some "01", some "2025"⟩ exRows = exRows :=
  c4_partial_filter_ignored ⟨some "03", none, some "01", some "2025"⟩ exRows (by decide)

/-- Helper for C7: on a list with pairwise-distinct ids, removing the rows
with the id of a member row is the same as erasing that single row. -/
theorem filter_id_ne_eq_erase {l : List ItemRow} {r : ItemRow}
    (hnd : (l.map (fun x => x.id)).Nodup) (hr : r ∈ l) :
    l.filter (fun x => !(x.id == r.id)) = l.erase r := by
  induction l with
  | nil => cases hr
  | cons a t ih =>
    rw [List.map_cons, List.nodup_cons] at hnd
    rcases List.mem_cons.mp hr with rfl | hrt
    · have ht : t.filter (fun x => !(x.id == r.id)) = t := by
        apply List.filter_eq_self.mpr
        intro x hx
        have : x.id ≠ r.id := fun he => hnd.1 (he ▸ List.mem_map_of_mem _ hx)
        simp [this]
      simp [List.erase_cons_head, ht]
    · have hne : a.id ≠ r.id := by
        intro he
        exact hnd.1 (he ▸ List.mem_map_of_mem _ hrt)
      have hane : a ≠ r := fun he => hne (congrArg ItemRow.id he)
      rw [List.filter_cons_of_pos (by simp [hne]), List.erase_cons_tail]
      · exact congrArg (a :: ·) (ih hnd.2 hrt)
      · simp [hane]

/-- C7: `DELETE FROM items WHERE id = ?` is idempotent; deleting an id with
no matching row (including a second delete of the same id) is a silent
no-op leaving the table unchanged, and deleting an existing id removes
exactly that row (ids being unique). -/
theorem c7_delete_idempotent (db : DB) (iid : Nat)
    (hnd : (db.items.map (fun x => x.id)).Nodup) :
    deleteItem (deleteItem db iid) iid = deleteItem db iid
  ∧ ((∀ r ∈ db.items, r.id ≠ iid) → deleteItem db iid = db)
  ∧ (∀ r ∈ db.items, r.id = iid → (deleteItem db iid).items = db.items.erase r) := by
  refine ⟨?_, ?_, ?_⟩
  · simp [deleteItem, List.filter_filter]
  · intro h
    have : db.items.filter (fun r => !(r.id == iid)) = db.items := by
      apply List.filter_eq_self.mpr
      intro x hx
      simp [h x hx]
    simp [deleteItem, this]
  · intro r hr hid
    subst hid
    exact filter_id_ne_eq_erase hnd hr

/-- Witness for C7: a double delete of id 1 from the sample database equals
a single delete, and deleting the absent id 99 changes nothing. -/
theorem c7_witness :
    deleteItem (deleteItem sampleDB 1) 1 = deleteItem sampleDB 1
  ∧ deleteItem sampleDB 99 = sampleDB :=
  ⟨(c7_delete_idempotent sampleDB 1 (by decide)).1,
   (c7_delete_idempotent sampleDB 99 (by decide)).2.1 (by decide)⟩

/-- C10: the export entry point stops with the `"No data to export"` error,
before any destination path is chosen or any document generation begins,
exactly when the filtered item list is empty; with a non-empty filtered
list it proceeds to path selection and PDF generation. -/
theorem c10_export_empty_no_pdf (f : FilterInput) (db : DB) :
    (exportToPdf f db = ExportOutcome.noData ↔ loadData f (listItems db) = [])
  ∧ (loadData f (listItems db) ≠ [] →
      exportToPdf f db = ExportOutcome.proceed (loadData f (listItems db))) := by
  constructor
  · unfold exportToPdf
    rcases h : loadData f (listItems db) with _ | ⟨a, t⟩ <;> simp [h]
  · intro h
    unfold exportToPdf
    simp [List.isEmpty_iff, h]

/-- Witness for C10: on an empty database the export reports no data; with
a row present and no filter it proceeds. -/
theorem c10_witness :
    exportToPdf ⟨none, none, none, none⟩ (⟨[], [], []⟩ : DB) = ExportOutcome.noData
  ∧ exportToPdf ⟨none, none, none, none⟩ sampleDB =
      ExportOutcome.proceed (loadData ⟨none, none, none, none⟩ (listItems sampleDB)) :=
  ⟨(c10_export_empty_no_pdf ⟨none, none, none, none⟩ ⟨[], [], []⟩).1.mpr (by decide),
   (c10_export_empty_no_pdf ⟨none, none, none, none⟩ sampleDB).2 (by decide)⟩

/-- C1: for every item list and every fully specified filter (all four
dropdowns set, carrying valid month/year values as the dropdowns
guarantee), `load_data` returns exactly the items whose
`(expiry_year, expiry_month)`, taken as the date
`(expiry_year, expiry_month, 1)`, lies within the inclusive range from
`(startYear, startMonth, 1)` to `(endYear, endMonth, 28)`. -/
theorem c1_full_filter_range (sm sy em ey : String) (rows : List ListedItem)
    (hsm : sm ≠ "") (hsy : sy ≠ "") (hem : em ≠ "") (hey : ey ≠ "")
    (hvs : pyDateValid (strToNat sy) (strToNat sm) = true)
    (hve : pyDateValid (strToNat ey) (strToNat em) = true)
    (hrows : ∀ r ∈ rows, pyDateValid r.expiry_year r.expiry_month = true) :
    loadData ⟨some sm, some sy, some em, some ey⟩ rows =
      rows.filter (fun r =>
        pyDateLe ⟨strToNat sy, strToNat sm, 1⟩ (itemDate r) &&
          pyDateLe (itemDate r) ⟨strToNat ey, strToNat em, 28⟩)
  ∧ ∀ r, r ∈ loadData ⟨some sm, some sy, some em, some ey⟩ rows ↔
      (r ∈ rows ∧ pyDateLe ⟨strToNat sy, strToNat sm, 1⟩ (itemDate r) = true ∧
        pyDateLe (itemDate r) ⟨strToNat ey, strToNat em, 28⟩ = true) := by
  have hall : rows.all (fun r => pyDateValid r.expiry_year r.expiry_month) = true :=
    List.all_eq_true.mpr hrows
  have hdata : ∀ s : String, s ≠ "" → s.data ≠ [] := by
    intro s hs hd
    exact hs (String.ext (hd.trans rfl))
  have heq : loadData ⟨some sm, some sy, some em, some ey⟩ rows =
      rows.filter (fun r =>
        pyDateLe ⟨strToNat sy, strToNat sm, 1⟩ (itemDate r) &&
          pyDateLe (itemDate r) ⟨strToNat ey, strToNat em, 28⟩) := by
    unfold loadData
    simp [pyTruthy, hdata sm hsm, hdata sy hsy, hdata em hem, hdata ey hey, hvs, hve, hall]
  refine ⟨heq, fun r => ?_⟩
  rw [heq, List.mem_filter]
  simp [Bool.and_eq_true]

/-- Witness for C1: items with expiry dates (2024,1), (2024,6), (2025,1)
filtered from (2024,3) to (2025,1) yield exactly the (2024,6) and (2025,1)
items. -/
theorem c1_witness :
    loadData ⟨some "03", some "2024", some "01", some "2025"⟩ exRows =
      exRows.filter (fun r =>
        pyDateLe ⟨strToNat "2024", strToNat "03", 1⟩ (itemDate r) &&
          pyDateLe (itemDate r) ⟨strToNat "2025", strToNat "01", 28⟩)
  ∧ (loadData ⟨some "03", some "2024", some "01", some "2025"⟩ exRows).map
      (fun r => (r.expiry_year, r.expiry_month)) = [(2024, 6), (2025, 1)] := by
  have h := c1_full_filter_range "03" "2024" "01" "2025" exRows
    (by decide) (by decide) (by decide) (by decide) (by decide) (by decide) (by decide)
  exact ⟨h.1, by rw [h.1]; decide⟩

/-- C5: each settings field whose input is blank after trimming keeps its
previous value, each non-blank input overwrites the field with the trimmed
value (so a non-blank field is never cleared to blank); `theme_mode` is
always `light` or `dark`; the storage step inserts a row when the table is
empty and otherwise updates the row with id 1. -/
theorem c5_settings_save (prev : SettingsState) (inp : SettingsInput) (db : DB) :
    ((pyStrip inp.name = "" → (newSettingsState prev inp).pharmacy_name = prev.pharmacy_name)
      ∧ (pyStrip inp.name ≠ "" → (newSettingsState prev inp).pharmacy_name = pyStrip inp.name)
      ∧ (prev.pharmacy_name ≠ "" → (newSettingsState prev inp).pharmacy_name ≠ ""))
  ∧ ((pyStrip inp.phone = "" → (newSettingsState prev inp).phone_number = prev.phone_number)
      ∧ (pyStrip inp.phone ≠ "" → (newSettingsState prev inp).phone_number = pyStrip inp.phone)
      ∧ (prev.phone_number ≠ "" → (newSettingsState prev inp).phone_number ≠ ""))
  ∧ ((pyStrip inp.docName = "" → (newSettingsState prev inp).doctor_name = prev.doctor_name)
      ∧ (pyStrip inp.docName ≠ "" → (newSettingsState prev inp).doctor_name = pyStrip inp.docName)
      ∧ (prev.doctor_name ≠ "" → (newSettingsState prev inp).doctor_name ≠ ""))
  ∧ ((pyStrip inp.docPhone = "" → (newSettingsState prev inp).doctor_phone = prev.doctor_phone)
      ∧ (pyStrip inp.docPhone ≠ "" → (newSettingsState prev inp).doctor_phone = pyStrip inp.docPhone)
      ∧ (prev.doctor_phone ≠ "" → (newSettingsState prev inp).doctor_phone ≠ ""))
  ∧ ((newSettingsState prev inp).theme_mode = "light"
      ∨ (newSettingsState prev inp).theme_mode = "dark")
  ∧ (db.settings = [] →
      (saveSettings db prev inp).settings = [settingsRowOf 1 (newSettingsState prev inp)])
  ∧ (db.settings ≠ [] →
      (saveSettings db prev inp).settings = db.settings.map (fun r =>
        if r.id == 1 then settingsRowOf r.id (newSettingsState prev inp) else r)) := by
  have hmerge : ∀ input prevVal : String,
      (pyStrip input = "" → mergeField input prevVal = prevVal)
      ∧ (pyStrip input ≠ "" → mergeField input prevVal = pyStrip input)
      ∧ (prevVal ≠ "" → mergeField input prevVal ≠ "") := by
    intro input prevVal
    unfold mergeField
    by_cases h : pyStrip input = "" <;> simp [h]
  refine ⟨hmerge _ _, hmerge _ _, hmerge _ _, hmerge _ _, ?_, ?_, ?_⟩
  · rcases inp.darkMode with _ | _ <;> simp [newSettingsState]
  · intro h
    simp [saveSettings, h]
  · intro h
    rw [saveSettings]
    simp [List.isEmpty_iff, h]

/-- Witness for C5: a blank pharmacy-name input keeps the stored name, a
non-blank one overwrites it, and saving on an empty settings table inserts
the row. -/
theorem c5_witness :
    (newSettingsState ⟨"Old", "p", "d", "q", "light"⟩ ⟨"  ", "", "", "", true⟩).pharmacy_name = "Old"
  ∧ (newSettingsState ⟨"Old", "p", "d", "q", "light"⟩ ⟨" New ", "", "", "", true⟩).pharmacy_name = "New"
  ∧ (saveSettings ⟨[], [], []⟩ ⟨"Old", "p", "d", "q", "light"⟩ ⟨"  ", "", "", "", true⟩).settings
      = [settingsRowOf 1 (newSettingsState ⟨"Old", "p", "d", "q", "light"⟩ ⟨"  ", "", "", "", true⟩)] :=
  ⟨(c5_settings_save ⟨"Old", "p", "d", "q", "light"⟩ ⟨"  ", "", "", "", true⟩ ⟨[], [], []⟩).1.1
      (by decide),
   (c5_settings_save ⟨"Old", "p", "d", "q", "light"⟩ ⟨" New ", "", "", "", true⟩ ⟨[], [], []⟩).1.2.1
      (by decide),
   (c5_settings_save ⟨"Old", "p", "d", "q", "light"⟩ ⟨"  ", "", "", "", true⟩ ⟨[], [], []⟩).2.2.2.2.2.1
      rfl⟩

/-- C8 fails as stated: the seeded settings row has phone number
`"0100000000"`, not an empty phone field, and the eighth seeded type is
named `"Cream "` with a trailing space, not `"Cream"`. -/
theorem c8_counterexample :
    ¬(((initDb ⟨[], [], []⟩).types.map (fun r => r.name_en) =
        ["Tablet", "Syrup", "Injection", "Capsule", "Ointment", "Drops", "Spray", "Cream"])
      ∧ ∀ r ∈ (initDb ⟨[], [], []⟩).settings, r.phone_number = "") := by
  decide

/-- C8 (amended): on initialization, the 8 fixed type rows — the first
seven named Tablet, Syrup, Injection, Capsule, Ointment, Drops, Spray and
the eighth named `"Cream "` (with a trailing space) — are inserted iff the
types table is empty, and one default settings row (pharmacy name
`"My Pharmacy"`, phone number `"0100000000"`, empty doctor fields, light
theme) is inserted iff the settings table is empty; a non-empty table is
left unchanged. -/
theorem c8_seeding (db : DB) :
    (db.types = [] → (initDb db).types = seedTypes)
  ∧ (db.types ≠ [] → (initDb db).types = db.types)
  ∧ (db.settings = [] → (initDb db).settings = [defaultSettingsRow])
  ∧ (db.settings ≠ [] → (initDb db).settings = db.settings)
  ∧ (initDb db).items = db.items := by
  refine ⟨fun h => ?_, fun h => ?_, fun h => ?_, fun h => ?_, rfl⟩
  · simp [initDb, h]
  · simp [initDb, List.length_eq_zero, h]
  · simp [initDb, h]
  · simp [initDb, List.length_eq_zero, h]

/-- Witness for C8 (amended): a fresh database gets both seeds; a database
with a non-empty types table keeps it. -/
theorem c8_witness :
    (initDb ⟨[], [], []⟩).types = seedTypes
  ∧ (initDb ⟨[], [], []⟩).settings = [defaultSettingsRow]
  ∧ (initDb sampleDB).types = sampleDB.types :=
  ⟨(c8_seeding ⟨[], [], []⟩).1 rfl,
   (c8_seeding ⟨[], [], []⟩).2.2.1 rfl,
   (c8_seeding sampleDB).2.1 (by decide)⟩

/-- A valid edit-form input used for C6. -/
def c6Input : ItemFormInput :=
  ⟨"Aspirin", "5", "2.50", some "06", some "2026", some "1"⟩

/-- C6 fails as stated: updating the non-existent id 99 in the sample
database (whose only item has id 1) succeeds as a silent no-op, reporting
the success snackbar and leaving the database unchanged — no
`NotFoundError` exists anywhere in the flow. -/
theorem c6_counterexample :
    (editSaveItem 99 c6Input sampleDB).2 = SaveOutcome.success "Item updated successfully"
  ∧ (editSaveItem 99 c6Input sampleDB).1 = sampleDB
  ∧ ∀ r ∈ sampleDB.items, r.id ≠ 99 := by
  refine ⟨?_, ?_, by decide⟩ <;> decide

/-- C6 (amended): for every database state and every id that does not
reference an existing item, the edit-page save with otherwise valid fields
succeeds as a silent no-op — the `UPDATE` matches zero rows, no row is
modified, no error is raised, and the success snackbar is shown. -/
theorem c6_update_missing_id_noop (iid : Nat) (inp : ItemFormInput) (db : DB)
    (hname : nameOk inp = true) (hqty : qtyOk inp = true) (hprice : priceOk inp = true)
    (hmy : monthYearOk inp = true) (hty : typeOk inp = true)
    (hmiss : ∀ r ∈ db.items, r.id ≠ iid) :
    editSaveItem iid inp db = (db, SaveOutcome.success "Item updated successfully") := by
  have hany : db.items.any (fun r => r.id == iid) = false := by
    rw [List.any_eq_false]
    intro r hr
    simpa using hmiss r hr
  have hmap : db.items.map (fun r =>
      if r.id == iid then
        (⟨r.id, (parsedFields inp).name, (parsedFields inp).type_id,
          (parsedFields inp).quantity, (parsedFields inp).price,
          (parsedFields inp).expiry_month, (parsedFields inp).expiry_year⟩ : ItemRow)
      else r) = db.items := by
    conv_rhs => rw [← List.map_id db.items]
    apply List.map_congr_left
    intro r hr
    have hne : (r.id == iid) = false := by simpa using hmiss r hr
    simp [hne]
  have hupd : updateItems db iid (parsedFields inp) = Except.ok db := by
    unfold updateItems
    rw [hany, hmap]
    simp
  simp [editSaveItem, hname, hqty, hprice, hmy, hty, hupd]

/-- Witness for C6 (amended): the edit save at the absent id 99 on the
sample database is a successful silent no-op. -/
theorem c6_witness :
    editSaveItem 99 c6Input sampleDB =
      (sampleDB, SaveOutcome.success "Item updated successfully") :=
  c6_update_missing_id_noop 99 c6Input sampleDB
    (by decide) (by decide) (by decide) (by decide) (by decide) (by decide)

/-- C2: an add or edit request whose name is blank after trimming, whose
quantity is not a positive integer, whose price is not a positive number,
or whose month/year/type dropdown is unset fails with the snackbar error
identifying the offending field, before any storage call and with the
database unchanged; a request passing all five checks proceeds to the
`INSERT` (append of the parsed row) resp. the `UPDATE` (rewrite of the
rows with the target id). -/
theorem c2_validation (inp : ItemFormInput) (db : DB) (iid : Nat) :
    ((pyStrip inp.name = "" ∨ qtyOk inp = false ∨ priceOk inp = false ∨
        pyTruthy inp.month = false ∨ pyTruthy inp.year = false ∨
        pyTruthy inp.typeId = false) →
      (addSaveItem inp db).1 = db
      ∧ (∃ m, (addSaveItem inp db).2 = SaveOutcome.error m)
      ∧ (editSaveItem iid inp db).1 = db
      ∧ (∃ m, (editSaveItem iid inp db).2 = SaveOutcome.error m))
  ∧ (pyStrip inp.name = "" →
      (addSaveItem inp db).2 = SaveOutcome.error "Please enter the item name"
      ∧ (editSaveItem iid inp db).2 = SaveOutcome.error "Please enter the item name")
  ∧ (nameOk inp = true → qtyOk inp = false →
      (addSaveItem inp db).2 = SaveOutcome.error "Quantity must be a positive integer"
      ∧ (editSaveItem iid inp db).2 = SaveOutcome.error "Quantity must be a positive integer")
  ∧ (nameOk inp = true → qtyOk inp = true → priceOk inp = false →
      (addSaveItem inp db).2 = SaveOutcome.error "Price must be a valid positive number"
      ∧ (editSaveItem iid inp db).2 = SaveOutcome.error "Price must be a valid positive number")
  ∧ (nameOk inp = true → qtyOk inp = true → priceOk inp = true → monthYearOk inp = false →
      (addSaveItem inp db).2 = SaveOutcome.error "Please select expiry month and year"
      ∧ (editSaveItem iid inp db).2 = SaveOutcome.error "Please select expiry month and year")
  ∧ (nameOk inp = true → qtyOk inp = true → priceOk inp = true → monthYearOk inp = true →
      typeOk inp = false →
      (addSaveItem inp db).2 = SaveOutcome.error "Please select a medicine type"
      ∧ (editSaveItem iid inp db).2 = SaveOutcome.error "Please select a medicine type")
  ∧ (nameOk inp = true → qtyOk inp = true → priceOk inp = true → monthYearOk inp = true →
      typeOk inp = true → itemChecksOk (parsedFields inp) = true →
      (addSaveItem inp db).1.items = db.items ++
        [⟨nextItemId db, (parsedFields inp).name, (parsedFields inp).type_id,
          (parsedFields inp).quantity, (parsedFields inp).price,
          (parsedFields inp).expiry_month, (parsedFields inp).expiry_year⟩]
      ∧ (addSaveItem inp db).2 = SaveOutcome.success "Item added successfully"
      ∧ (editSaveItem iid inp db).1.items = db.items.map (fun r =>
          if r.id == iid then
            (⟨r.id, (parsedFields inp).name, (parsedFields inp).type_id,
              (parsedFields inp).quantity, (parsedFields inp).price,
              (parsedFields inp).expiry_month, (parsedFields inp).expiry_year⟩ : ItemRow)
          else r)
      ∧ (editSaveItem iid inp db).2 = SaveOutcome.success "Item updated successfully") := by
  have hname_iff : pyStrip inp.name = "" ↔ nameOk inp = false := by
    simp [nameOk]
  refine ⟨?_, ?_, ?_, ?_, ?_, ?_, ?_⟩
  · intro hfail
    cases hn : nameOk inp with
    | false => simp [addSaveItem, editSaveItem, hn]
    | true =>
      cases hq : qtyOk inp with
      | false => simp [addSaveItem, editSaveItem, hn, hq]
      | true =>
        cases hp : priceOk inp with
        | false => simp [addSaveItem, editSaveItem, hn, hq, hp]
        | true =>
          cases hm : monthYearOk inp with
          | false => simp [addSaveItem, editSaveItem, hn, hq, hp, hm]
          | true =>
            cases ht : typeOk inp with
            | false => simp [addSaveItem, editSaveItem, hn, hq, hp, hm, ht]
            | true =>
              exfalso
              rw [monthYearOk, Bool.and_eq_true] at hm
              rw [typeOk] at ht
              rcases hfail with h | h | h | h | h | h
              · rw [hname_iff.mp h] at hn; exact Bool.false_ne_true hn
              · rw [h] at hq; exact Bool.false_ne_true hq
              · rw [h] at hp; exact Bool.false_ne_true hp
              · rw [h] at hm; exact Bool.false_ne_true hm.1
              · rw [h] at hm; exact Bool.false_ne_true hm.2
              · rw [h] at ht; exact Bool.false_ne_true ht
  · intro hs
    have hn := hname_iff.mp hs
    exact ⟨by simp [addSaveItem, hn], by simp [editSaveItem, hn]⟩
  · intro hn hq
    exact ⟨by simp [addSaveItem, hn, hq], by simp [editSaveItem, hn, hq]⟩
  · intro hn hq hp
    exact ⟨by simp [addSaveItem, hn, hq, hp], by simp [editSaveItem, hn, hq, hp]⟩
  · intro hn hq hp hm
    exact ⟨by simp [addSaveItem, hn, hq, hp, hm], by simp [editSaveItem, hn, hq, hp, hm]⟩
  · intro hn hq hp hm ht
    exact ⟨by simp [addSaveItem, hn, hq, hp, hm, ht],
           by simp [editSaveItem, hn, hq, hp, hm, ht]⟩
  · intro hn hq hp hm ht hck
    refine ⟨?_, ?_, ?_, ?_⟩ <;>
      simp [addSaveItem, editSaveItem, insertItem, updateItems, hn, hq, hp, hm, ht, hck]

/-- Witness for C2: a blank name is rejected with the name error and no
write; a zero quantity is rejected with the quantity error; a request
passing all checks appends the parsed row. -/
theorem c2_witness :
    ((addSaveItem ⟨" ", "10", "5.50", some "12", some "2025", some "1"⟩ sampleDB).1 = sampleDB
      ∧ (addSaveItem ⟨" ", "10", "5.50", some "12", some "2025", some "1"⟩ sampleDB).2 =
          SaveOutcome.error "Please enter the item name")
  ∧ (addSaveItem ⟨"Paracetamol", "0", "5.50", some "12", some "2025", some "1"⟩ sampleDB).2 =
      SaveOutcome.error "Quantity must be a positive integer"
  ∧ (addSaveItem ⟨"Paracetamol", "10", "5.50", some "12", some "2025", some "1"⟩ sampleDB).1.items =
      sampleDB.items ++
        [⟨nextItemId sampleDB,
          (parsedFields ⟨"Paracetamol", "10", "5.50", some "12", some "2025", some "1"⟩).name,
          (parsedFields ⟨"Paracetamol", "10", "5.50", some "12", some "2025", some "1"⟩).type_id,
          (parsedFields ⟨"Paracetamol", "10", "5.50", some "12", some "2025", some "1"⟩).quantity,
          (parsedFields ⟨"Paracetamol", "10", "5.50", some "12", some "2025", some "1"⟩).price,
          (parsedFields ⟨"Paracetamol", "10", "5.50", some "12", some "2025", some "1"⟩).expiry_month,
          (parsedFields ⟨"Paracetamol", "10", "5.50", some "12", some "2025", some "1"⟩).expiry_year⟩] :=
  ⟨⟨((c2_validation ⟨" ", "10", "5.50", some "12", some "2025", some "1"⟩ sampleDB 1).1
        (Or.inl (by decide))).1,
    ((c2_validation ⟨" ", "10", "5.50", some "12", some "2025", some "1"⟩ sampleDB 1).2.1
        (by decide)).1⟩,
   ((c2_validation ⟨"Paracetamol", "0", "5.50", some "12", some "2025", some "1"⟩ sampleDB 1).2.2.1
        (by decide) (by decide)).1,
   ((c2_validation ⟨"Paracetamol", "10", "5.50", some "12", some "2025", some "1"⟩ sampleDB 1).2.2.2.2.2.2
        (by decide) (by decide) (by decide) (by decide) (by decide) (by decide)).1⟩

/-- Helper for C9: the body has one row per item. -/
theorem pdfBodyRows_length (start : Nat) (rows : List ListedItem) :
    (pdfBodyRows start rows).length = rows.length := by
  induction rows generalizing start with
  | nil => rfl
  | cons r rs ih => simp [pdfBodyRows, ih]

/-- Helper for C9: the k-th body row is the k-th item rendered with running
number `start + k`. -/
theorem pdfBodyRows_getD (rows : List ListedItem) (start k : Nat) (hk : k < rows.length) :
    (pdfBodyRows start rows).getD k [] = pdfItemRow (start + k) (rows.get ⟨k, hk⟩) := by
  induction rows generalizing start k with
  | nil => cases hk
  | cons r rs ih =>
    cases k with
    | zero => simp [pdfBodyRows]
    | succ k =>
      have hk' : k < rs.length := Nat.lt_of_succ_lt_succ hk
      simp only [pdfBodyRows, List.getD_cons_succ]
      rw [ih (start + 1) k hk']
      have harith : start + 1 + k = start + (k + 1) := by omega
      rw [harith]
      rfl

/-- C9: for every non-empty item sequence, the PDF table body consists of
the header `[No, Name, Type, Qty, Price, Expiry]` followed by one row per
item in the order given, numbered 1..N, with the quantity decimal, the
price rendered with exactly two decimals, and the expiry rendered as
zero-padded month, a slash, and the year. -/
theorem c9_pdf_table (rows : List ListedItem) (h : rows ≠ []) :
    (pdfTableData rows).length = rows.length + 1
  ∧ (pdfTableData rows).getD 0 [] = ["No", "Name", "Type", "Qty", "Price", "Expiry"]
  ∧ ∀ k, (hk : k < rows.length) →
      (pdfTableData rows).getD (k + 1) [] =
        [toString (k + 1), (rows.get ⟨k, hk⟩).name, (rows.get ⟨k, hk⟩).type_name,
         toString (rows.get ⟨k, hk⟩).quantity, format2f (rows.get ⟨k, hk⟩).price,
         pad2 (rows.get ⟨k, hk⟩).expiry_month ++ "/" ++ toString (rows.get ⟨k, hk⟩).expiry_year] := by
  refine ⟨by simp [pdfTableData, pdfBodyRows_length], rfl, ?_⟩
  intro k hk
  show (pdfBodyRows 1 rows).getD k [] = _
  rw [pdfBodyRows_getD rows 1 k hk]
  rw [Nat.add_comm 1 k]
  rfl

/-- The listed row of the end-to-end example item. -/
def paraRow : ListedItem :=
  ⟨1, "Paracetamol", "Tablet", 10, parsePrice "5.50", 12, 2025⟩

/-- Witness for C9: the example item ("Paracetamol", Tablet, 10, 5.50,
12/2025) renders as the table row 1 | Paracetamol | Tablet | 10 | 5.50 |
12/2025 under the header row. -/
theorem c9_witness :
    ([paraRow] ≠ ([] : List ListedItem))
  ∧ (pdfTableData [paraRow]).getD 0 [] = ["No", "Name", "Type", "Qty", "Price", "Expiry"]
  ∧ (pdfTableData [paraRow]).getD 1 [] =
      ["1", "Paracetamol", "Tablet", "10", "5.50", "12/2025"] := by
  have h := c9_pdf_table [paraRow] (by simp)
  refine ⟨by simp, h.2.1, ?_⟩
  have h3 := h.2.2 0 (by simp)
  exact h3.trans (by decide)

/-- Matcher for C3: a listed row whose displayed fields equal the inserted
values (joined with the type name). -/
def rowMatchesFields (f : ItemFields) (tn : String) (r : ListedItem) : Bool :=
  decide (r.name = f.name) && decide (r.type_name = tn) &&
    decide (r.quantity = f.quantity) && decide (r.price = f.price) &&
    decide (r.expiry_month = f.expiry_month) && decide (r.expiry_year = f.expiry_year)

/-- C3: a valid insert (passing the schema checks, with an existing type)
succeeds, and the subsequent unfiltered listing is a permutation of the
old listing plus the joined new row — in particular it contains exactly
one additional row matching the inserted fields — and the whole listing is
ordered by `(expiry_year, expiry_month)` ascending. -/
theorem c3_insert_listing (db : DB) (f : ItemFields) (t : TypeRow)
    (hck : itemChecksOk f = true)
    (ht : db.types.find? (fun tr => tr.id == f.type_id) = some t) :
    ∃ db2, insertItem db f = Except.ok db2
      ∧ (listItems db2).Perm
          ((⟨nextItemId db, f.name, t.name_en, f.quantity, f.price, f.expiry_month,
            f.expiry_year⟩ : ListedItem) :: listItems db)
      ∧ (listItems db2).countP (rowMatchesFields f t.name_en) =
          (listItems db).countP (rowMatchesFields f t.name_en) + 1
      ∧ (listItems db2).Pairwise expiryLe := by
  have hjoin : joinRow db.types
      (⟨nextItemId db, f.name, f.type_id, f.quantity, f.price, f.expiry_month,
        f.expiry_year⟩ : ItemRow) =
      some ⟨nextItemId db, f.name, t.name_en, f.quantity, f.price, f.expiry_month,
        f.expiry_year⟩ := by
    simp [joinRow, ht]
  have hfm : (db.items ++
      [(⟨nextItemId db, f.name, f.type_id, f.quantity, f.price, f.expiry_month,
        f.expiry_year⟩ : ItemRow)]).filterMap (joinRow db.types) =
      db.items.filterMap (joinRow db.types) ++
        [⟨nextItemId db, f.name, t.name_en, f.quantity, f.price, f.expiry_month,
          f.expiry_year⟩] := by
    rw [List.filterMap_append]
    simp [hjoin]
  have hperm : (((db.items ++
      [(⟨nextItemId db, f.name, f.type_id, f.quantity, f.price, f.expiry_month,
        f.expiry_year⟩ : ItemRow)]).filterMap (joinRow db.types)).insertionSort
        expiryLe).Perm
      ((⟨nextItemId db, f.name, t.name_en, f.quantity, f.price, f.expiry_month,
        f.expiry_year⟩ : ListedItem) :: listItems db) := by
    rw [hfm]
    have p1 := List.perm_insertionSort expiryLe
      (db.items.filterMap (joinRow db.types) ++
        [(⟨nextItemId db, f.name, t.name_en, f.quantity, f.price, f.expiry_month,
          f.expiry_year⟩ : ListedItem)])
    have p3 := List.perm_append_singleton
      (⟨nextItemId db, f.name, t.name_en, f.quantity, f.price, f.expiry_month,
        f.expiry_year⟩ : ListedItem)
      (db.items.filterMap (joinRow db.types))
    have p2 := (List.perm_insertionSort expiryLe (db.items.filterMap (joinRow db.types))).symm
    exact (p1.trans p3).trans (p2.cons _)
  refine ⟨{ db with items := db.items ++
      [⟨nextItemId db, f.name, f.type_id, f.quantity, f.price, f.expiry_month,
        f.expiry_year⟩] },
    by rw [insertItem, if_pos hck], hperm, ?_, ?_⟩
  · have hc := hperm.countP_eq (rowMatchesFields f t.name_en)
    refine hc.trans ?_
    rw [List.countP_cons]
    simp [rowMatchesFields]
  · exact List.sorted_insertionSort expiryLe _

/-- The fields of the end-to-end example insert. -/
def paraFields : ItemFields :=
  ⟨"Paracetamol", 1, 10, parsePrice "5.50", 12, 2025⟩

/-- Witness for C3: inserting the example item into the sample database
succeeds, the new listing is the old one plus the joined row, the count of
matching rows grows by one, and the listing stays ordered. -/
theorem c3_witness :
    itemChecksOk paraFields = true
  ∧ ∃ db2, insertItem sampleDB paraFields = Except.ok db2
      ∧ (listItems db2).Perm
          ((⟨nextItemId sampleDB, paraFields.name, "Tablet", paraFields.quantity,
            paraFields.price, paraFields.expiry_month, paraFields.expiry_year⟩ : ListedItem)
            :: listItems sampleDB)
      ∧ (listItems db2).countP (rowMatchesFields paraFields "Tablet") =
          (listItems sampleDB).countP (rowMatchesFields paraFields "Tablet") + 1
      ∧ (listItems db2).Pairwise expiryLe :=
  ⟨by decide,
   c3_insert_listing sampleDB paraFields ⟨1, "Tablet", "أقراص"⟩ (by decide) (by decide)⟩

end Pharmacy
